import Mathlib

/-!
Verification of the TakosEncryptInk post-quantum E2E encryption toolkit
(`src/rust`): key records, per-role validators, the symmetric and hybrid
KEM+AEAD pipelines, the signed-envelope operations and the message layer.

Embedding conventions:
* Every JSON record is represented by its parsed structure; a source
  function taking a JSON string takes the corresponding `Option T`
  (parse result), `none` meaning the string does not parse as `T`.
  This mirrors the `serde_json::from_str::<T>(..)` calls in the source.
* Base64-encoded binary fields are represented by their decoded byte
  list (`Bytes`); the standard-alphabet base64 codec of the `base64`
  crate is injective on valid input and total on byte lists, so a field
  is its decode image.  A length check `BASE64.decode(x).len() == n`
  becomes `x.length == n`.
* The external cryptography provider (ml_kem, ml_dsa, aes_gcm, sha2 and
  the OS RNG) is not part of the repository; it is modelled by concrete
  executable functions that satisfy exactly the contract stated in the
  specification (round-trip correctness, tag checking, fixed byte
  lengths).  Randomness drawn from `OsRng` becomes an explicit argument.
* Rust `panic!`/`unwrap` aborts are a distinguished `Outcome.panics`
  result, `None` is `Outcome.absent`, success is `Outcome.ok`.
  Arithmetic follows release-mode (wrapping) semantics.
-/

set_option maxRecDepth 20000

/-- Result of a Rust function returning `Option<T>` whose body may also
abort via `unwrap`: `panics` models an abort, `absent` models `None`. -/
inductive Outcome (α : Type) where
  | panics : Outcome α
  | absent : Outcome α
  | ok : α → Outcome α
deriving Repr, DecidableEq

/-- Decoded binary data: a list of byte values. -/
abbrev Bytes := List Nat

/-- UTF-8 encoding of a string, modelled at code-point granularity
(injective, matching `str::as_bytes` up to the byte representation). -/
def strBytes (s : String) : Bytes := s.data.map Char.toNat

/-- Inverse of `strBytes`, modelling `String::from_utf8` on images of
`strBytes`. -/
def bytesStr (l : Bytes) : String := ⟨l.map Char.ofNat⟩

theorem bytesStr_strBytes (s : String) : bytesStr (strBytes s) = s := by
  cases s with
  | mk data =>
    have h : data.map (Char.ofNat ∘ Char.toNat) = data := by
      have : (Char.ofNat ∘ Char.toNat) = id := by
        funext c
        exact Char.ofNat_toNat c
      rw [this, List.map_id]
    simp [bytesStr, strBytes, List.map_map, h]

/-- Mixing step of the byte-level hash model (external provider model). -/
def mixStep (acc b : Nat) : Nat := (acc * 31 + b + 1) % 4294967296

/-- Byte-list hash accumulator used by the models of SHA-256, ML-KEM and
ML-DSA from the external cryptography provider. -/
def hashish (l : Bytes) : Nat := l.foldl mixStep 5381

/-- Model of the 32-byte SHA-256 digest of a string (external provider). -/
def sha256Bytes (s : String) : Bytes :=
  (List.range 32).map (fun i => (hashish (strBytes s) + i * 7 + 3) % 256)

theorem sha256Bytes_length (s : String) : (sha256Bytes s).length = 32 := by
  simp [sha256Bytes]

/-- Injective textual rendering of a byte list, standing in for the
standard-alphabet base64 encoding (used only where the source hashes or
embeds the encoded text). -/
def b64e (l : Bytes) : String := String.intercalate "," (l.map toString)

/-- `utils::key_hash`: base64 text of the SHA-256 digest of the input. -/
def key_hash (input : String) : String := b64e (sha256Bytes input)

/-- Model of the AES-256-GCM authentication tag over key, IV and
ciphertext body (external provider). -/
def gcmTag (key iv ct : Bytes) : Bytes :=
  (List.range 16).map
    (fun i => (hashish key * 3 + hashish iv * 5 + hashish ct * 7 + i) % 256)

theorem gcmTag_length (key iv ct : Bytes) : (gcmTag key iv ct).length = 16 := by
  simp [gcmTag]

/-- Model of AES-256-GCM encryption: ciphertext body followed by the
16-byte tag (`ciphertextWithTag` in the specification). -/
def aeadEncrypt (key iv pt : Bytes) : Bytes := pt ++ gcmTag key iv pt

/-- Model of AES-256-GCM decryption: split off the 16-byte tag,
recompute it and compare; `none` is an authentication failure. -/
def aeadDecrypt (key iv ct : Bytes) : Option Bytes :=
  if ct.length < 16 then none
  else
    let pt := ct.take (ct.length - 16)
    if ct.drop (ct.length - 16) = gcmTag key iv pt then some pt else none

theorem aead_roundtrip (key iv pt : Bytes) :
    aeadDecrypt key iv (aeadEncrypt key iv pt) = some pt := by
  have hlen : (aeadEncrypt key iv pt).length = pt.length + 16 := by
    simp [aeadEncrypt, gcmTag]
  have htake : (aeadEncrypt key iv pt).take pt.length = pt :=
    List.take_left pt (gcmTag key iv pt)
  have hdrop : (aeadEncrypt key iv pt).drop pt.length = gcmTag key iv pt :=
    List.drop_left pt (gcmTag key iv pt)
  unfold aeadDecrypt
  rw [hlen]
  simp [Nat.add_sub_cancel, htake, hdrop]

/-- Model of ML-KEM-768 encapsulation-key generation from an RNG seed:
1184 bytes (external provider). -/
def kemPk (seed : Nat) : Bytes := List.replicate 1184 (seed % 256)

/-- Model of ML-KEM-768 decapsulation-key generation: 2400 bytes, whose
first 1184 bytes encode the encapsulation key (as in FIPS 203). -/
def kemSk (seed : Nat) : Bytes := kemPk seed ++ List.replicate 1216 ((seed + 1) % 256)

/-- Model of the 1088-byte ML-KEM-768 ciphertext produced by
encapsulating against `pk` with encapsulation randomness `r`. -/
def kemCtFn (pk r : Bytes) : Bytes :=
  (List.range 1088).map (fun i => (hashish pk + hashish r + i * 13) % 256)

/-- Model of the 32-byte ML-KEM-768 shared secret, recoverable from the
encapsulation key and the ciphertext. -/
def kemShared (pk ct : Bytes) : Bytes :=
  (List.range 32).map (fun i => (hashish pk * 9 + hashish ct * 11 + i) % 256)

theorem kemPk_length (seed : Nat) : (kemPk seed).length = 1184 := by
  simp [kemPk]

theorem kemSk_length (seed : Nat) : (kemSk seed).length = 2400 := by
  simp [kemSk, kemPk]

theorem kemSk_take (seed : Nat) : (kemSk seed).take 1184 = kemPk seed := by
  have h := List.take_left (kemPk seed) (List.replicate 1216 ((seed + 1) % 256))
  rwa [kemPk_length seed] at h

theorem kemCtFn_length (pk r : Bytes) : (kemCtFn pk r).length = 1088 := by
  simp [kemCtFn]

/-- Model of ML-DSA-65 verifying-key generation: 1952 bytes. -/
def dsaPk65 (seed : Nat) : Bytes := List.replicate 1952 (seed % 256)

/-- Model of ML-DSA-65 signing-key generation: 4032 bytes whose first
1952 bytes determine the verifying key. -/
def dsaSk65 (seed : Nat) : Bytes := dsaPk65 seed ++ List.replicate 2080 ((seed + 3) % 256)

/-- Model of the 3309-byte ML-DSA-65 signature of `msg` under the pair
determined by verifying key `pk`. -/
def dsaSig65 (pk msg : Bytes) : Bytes :=
  (List.range 3309).map (fun i => (hashish pk * 13 + hashish msg * 17 + i) % 256)

/-- Model of ML-DSA-87 verifying-key generation: 2592 bytes. -/
def dsaPk87 (seed : Nat) : Bytes := List.replicate 2592 (seed % 256)

/-- Model of ML-DSA-87 signing-key generation: 4896 bytes whose first
2592 bytes determine the verifying key. -/
def dsaSk87 (seed : Nat) : Bytes := dsaPk87 seed ++ List.replicate 2304 ((seed + 5) % 256)

/-- Model of the 4627-byte ML-DSA-87 signature. -/
def dsaSig87 (pk msg : Bytes) : Bytes :=
  (List.range 4627).map (fun i => (hashish pk * 19 + hashish msg * 23 + i) % 256)

/-- `keyutils::generate_symmetric_key`: 32 random bytes (RNG output is
the explicit seed argument). -/
def generate_symmetric_key (seed : Nat) : Bytes :=
  (List.range 32).map (fun i => (seed + i * 101) % 256)

theorem generate_symmetric_key_length (seed : Nat) :
    (generate_symmetric_key seed).length = 32 := by
  simp [generate_symmetric_key]

/-- `signature::sign_with_mlds65`: fails (`Err`) unless the encoded
signing key has the ML-DSA-65 length, then signs. -/
def sign_with_mlds65 (sk : Bytes) (msg : Bytes) : Option Bytes :=
  if sk.length = 4032 then some (dsaSig65 (sk.take 1952) msg) else none

/-- `signature::verify_with_mlds65`: false unless the verifying key has
the ML-DSA-65 length and the signature is the valid signature of `msg`
under it. -/
def verify_with_mlds65 (pk : Bytes) (msg sig : Bytes) : Bool :=
  pk.length == 1952 && sig == dsaSig65 pk msg

/-- `signature::sign_with_mlds87`. -/
def sign_with_mlds87 (sk : Bytes) (msg : Bytes) : Option Bytes :=
  if sk.length = 4896 then some (dsaSig87 (sk.take 2592) msg) else none

/-- `signature::verify_with_mlds87`. -/
def verify_with_mlds87 (pk : Bytes) (msg sig : Bytes) : Bool :=
  pk.length == 2592 && sig == dsaSig87 pk msg

/-- `type::Sign` (signed envelope), field for field; `signature` is the
decoded signature bytes, `algorithm` is `Option` as in the source. -/
structure Sign where
  keyHash : String
  signature : Bytes
  keyType : String
  algorithm : Option String
deriving Repr, DecidableEq

/-- `type::EncryptedData` (encrypted envelope), binary fields decoded. -/
structure EncryptedData where
  keyType : String
  keyHash : Bytes
  encryptedData : Bytes
  iv : Bytes
  algorithm : Option String
  cipherText : Option Bytes
deriving Repr, DecidableEq

/-- `signature::create_signature_object_mlds65`. -/
def create_signature_object_mlds65 (sk : Bytes) (data : Bytes)
    (kh : String) (kt : String) : Option Sign :=
  (sign_with_mlds65 sk data).map (fun s => ⟨kh, s, kt, some "ML-DSA-65"⟩)

/-- `signature::create_signature_object_mlds87`. -/
def create_signature_object_mlds87 (sk : Bytes) (data : Bytes)
    (kh : String) (kt : String) : Option Sign :=
  (sign_with_mlds87 sk data).map (fun s => ⟨kh, s, kt, some "ML-DSA-87"⟩)

/-- `crypto::AsymmetricEncrypted`. -/
structure AsymmetricEncrypted where
  encryptedData : Bytes
  cipherText : Bytes
  iv : Bytes
  algorithm : String
deriving Repr, DecidableEq

/-- `crypto::SymmetricEncrypted`. -/
structure SymmetricEncrypted where
  encryptedData : Bytes
  iv : Bytes
  algorithm : String
deriving Repr, DecidableEq

/-- `crypto::encrypt` (hybrid KEM+AEAD pipeline).  `r` and `iv` are the
RNG draws for encapsulation and the 12-byte IV.  The
`Array::try_from(..).unwrap()` on the decoded public key aborts unless
it is exactly 1184 bytes. -/
def encrypt (data : String) (pk : Bytes) (r iv : Bytes) : Outcome AsymmetricEncrypted :=
  if pk.length ≠ 1184 then .panics
  else
    let ct := kemCtFn pk r
    let shared := kemShared pk ct
    .ok ⟨aeadEncrypt shared iv (strBytes data), ct, iv, "AES-GCM"⟩

/-- `crypto::decrypt` (hybrid pipeline).  Each `unwrap` on a
wrong-length key or ciphertext, a wrong-length IV, a failed AEAD
authentication, or invalid UTF-8 aborts.  ML-KEM decapsulation itself
is infallible (implicit rejection). -/
def decrypt (encryptedData cipherText iv sk : Bytes) : Outcome String :=
  if sk.length ≠ 2400 then .panics
  else if cipherText.length ≠ 1088 then .panics
  else
    let shared := kemShared (sk.take 1184) cipherText
    if iv.length ≠ 12 then .panics
    else
      match aeadDecrypt shared iv encryptedData with
      | none => .panics
      | some pt => .ok (bytesStr pt)

/-- `crypto::encrypt_with_symmetric_key`.  `iv` is the freshly drawn
12-byte IV; `Aes256Gcm::new_from_slice(..).unwrap()` aborts unless the
decoded key is exactly 32 bytes. -/
def encrypt_with_symmetric_key (data : String) (key : Bytes) (iv : Bytes) :
    Outcome SymmetricEncrypted :=
  if key.length ≠ 32 then .panics
  else .ok ⟨aeadEncrypt key iv (strBytes data), iv, "AES-GCM"⟩

/-- `crypto::decrypt_with_symmetric_key`: aborts on a wrong-length key
(`new_from_slice`), a wrong-length IV (`Nonce::from_slice`), a failed
AEAD authentication or invalid UTF-8 (`unwrap`). -/
def decrypt_with_symmetric_key (encryptedData iv key : Bytes) : Outcome String :=
  if key.length ≠ 32 then .panics
  else if iv.length ≠ 12 then .panics
  else
    match aeadDecrypt key iv encryptedData with
    | none => .panics
    | some pt => .ok (bytesStr pt)

/-- Lower-case hex digit predicate for the UUIDv7 pattern. -/
def isHexLower (c : Char) : Bool :=
  (decide ('0' ≤ c) && decide (c ≤ '9')) || (decide ('a' ≤ c) && decide (c ≤ 'f'))

/-- `core::is_valid_uuid_v7`: matches
`[0-9a-f]{8}-[0-9a-f]{4}-7[0-9a-f]{3}-[89ab][0-9a-f]{3}-[0-9a-f]{12}`
anchored on both ends. -/
def is_valid_uuid_v7 (uuid : String) : Bool :=
  let cs := uuid.data
  cs.length == 36 &&
  (List.range 36).all (fun i =>
    let c := cs.getD i ' '
    if i == 8 || i == 13 || i == 18 || i == 23 then c == '-'
    else if i == 14 then c == '7'
    else if i == 19 then c == '8' || c == '9' || c == 'a' || c == 'b'
    else isHexLower c)

/-- `type::MasterKey`. -/
structure MasterKey where
  keyType : String
  key : Bytes
deriving Repr, DecidableEq

/-- `type::IdentityKey`. -/
structure IdentityKey where
  keyType : String
  key : Bytes
  algorithm : String
  timestamp : Nat
  sessionUuid : String
deriving Repr, DecidableEq

/-- `type::AccountKey`. -/
structure AccountKey where
  keyType : String
  key : Bytes
  algorithm : String
  timestamp : Nat
deriving Repr, DecidableEq

/-- `type::RoomKey`. -/
structure RoomKey where
  keyType : String
  key : Bytes
  algorithm : String
  timestamp : Nat
  sessionUuid : String
deriving Repr, DecidableEq

/-- `serde_json::to_string` of a `MasterKey` (canonical field order). -/
def serializeMasterKey (m : MasterKey) : String :=
  "\x7b\"keyType\":\"" ++ m.keyType ++ "\",\"key\":\"" ++ b64e m.key ++ "\"\x7d"

/-- `serde_json::to_string` of an `AccountKey`. -/
def serializeAccountKey (a : AccountKey) : String :=
  "\x7b\"keyType\":\"" ++ a.keyType ++ "\",\"key\":\"" ++ b64e a.key ++
  "\",\"algorithm\":\"" ++ a.algorithm ++ "\",\"timestamp\":" ++ toString a.timestamp ++ "\x7d"

/-- `serde_json::to_string` of an `IdentityKey`. -/
def serializeIdentityKey (k : IdentityKey) : String :=
  "\x7b\"keyType\":\"" ++ k.keyType ++ "\",\"key\":\"" ++ b64e k.key ++
  "\",\"algorithm\":\"" ++ k.algorithm ++ "\",\"timestamp\":" ++ toString k.timestamp ++
  ",\"sessionUuid\":\"" ++ k.sessionUuid ++ "\"\x7d"

/-- `serde_json::to_string` of a `RoomKey`. -/
def serializeRoomKey (k : RoomKey) : String :=
  "\x7b\"keyType\":\"" ++ k.keyType ++ "\",\"key\":\"" ++ b64e k.key ++
  "\",\"algorithm\":\"" ++ k.algorithm ++ "\",\"timestamp\":" ++ toString k.timestamp ++
  ",\"sessionUuid\":\"" ++ k.sessionUuid ++ "\"\x7d"

/-- `keyutils::is_valid_dsa87_key`: decoded-length test for the public
key; for the private key, a successful `EncodedSigningKey` conversion
(length 4896) followed by a test signature, which always has positive
length. -/
def is_valid_dsa87_key (key : Bytes) (isPublic : Bool) : Bool :=
  if isPublic then key.length == 2592 else key.length == 4896

/-- `keyutils::is_valid_kem_key`: decoded-length test (1184 public,
2400 private). -/
def is_valid_kem_key (key : Bytes) (isPublic : Bool) : Bool :=
  if isPublic then key.length == 1184 else key.length == 2400

/-- `master_key::is_valid_master_key_public`. -/
def is_valid_master_key_public (mk : Option MasterKey) : Bool :=
  match mk with
  | none => false
  | some m => m.keyType == "masterKeyPublic" && is_valid_dsa87_key m.key true

/-- `master_key::is_valid_master_key_private`. -/
def is_valid_master_key_private (mk : Option MasterKey) : Bool :=
  match mk with
  | none => false
  | some m => m.keyType == "masterKeyPrivate" && is_valid_dsa87_key m.key false

/-- `master_key::sign_master_key`. -/
def sign_master_key (mk : Option MasterKey) (data : String) (pubKeyHash : String) :
    Option Sign :=
  match mk with
  | none => none
  | some m =>
    if m.keyType != "masterKeyPrivate" then none
    else create_signature_object_mlds87 m.key (strBytes data) pubKeyHash "masterKey"

/-- `master_key::verify_master_key`. -/
def verify_master_key (mk : Option MasterKey) (sign : Option Sign) (data : String) : Bool :=
  match mk with
  | none => false
  | some m =>
    if m.keyType != "masterKeyPublic" then false
    else
      match sign with
      | none => false
      | some s =>
        if s.keyType != "masterKey" then false
        else verify_with_mlds87 m.key (strBytes data) s.signature

/-- `identity_key::is_valid_identity_key_public`.  Note: no key-length
check is performed for this role. -/
def is_valid_identity_key_public (ik : Option IdentityKey) : Bool :=
  match ik with
  | none => false
  | some k =>
    k.keyType == "identityKeyPublic" && k.algorithm == "ML-DSA-65" &&
    is_valid_uuid_v7 k.sessionUuid

/-- `identity_key::is_valid_identity_key_private`. -/
def is_valid_identity_key_private (ik : Option IdentityKey) : Bool :=
  match ik with
  | none => false
  | some k =>
    k.keyType == "identityKeyPrivate" && k.algorithm == "ML-DSA-65" &&
    is_valid_uuid_v7 k.sessionUuid

/-- `identity_key::sign_identity_key`. -/
def sign_identity_key (ik : Option IdentityKey) (data : String) (kh : String) :
    Option Sign :=
  match ik with
  | none => none
  | some k =>
    if k.keyType != "identityKeyPrivate" then none
    else create_signature_object_mlds65 k.key (strBytes data) kh "identityKey"

/-- `identity_key::verify_identity_key`. -/
def verify_identity_key (ik : Option IdentityKey) (sign : Option Sign) (data : String) : Bool :=
  match ik with
  | none => false
  | some k =>
    if k.keyType != "identityKeyPublic" then false
    else
      match sign with
      | none => false
      | some s =>
        if s.keyType != "identityKey" then false
        else verify_with_mlds65 k.key (strBytes data) s.signature

/-- `identity_key::generate_identity_key`: requires a UUIDv7 and a valid
master key pair, generates an ML-DSA-65 pair (RNG seed `seed`, wall time
`ts`), and signs the serialized public record with the master private
key using the hash of the master public record's `key` field. -/
def generate_identity_key (uuid : String) (mpub mpriv : Option MasterKey)
    (seed ts : Nat) : Option (IdentityKey × IdentityKey × Sign) :=
  if !is_valid_uuid_v7 uuid then none
  else if !is_valid_master_key_private mpriv then none
  else if !is_valid_master_key_public mpub then none
  else
    let pubObj : IdentityKey := ⟨"identityKeyPublic", dsaPk65 seed, "ML-DSA-65", ts, uuid⟩
    let privObj : IdentityKey := ⟨"identityKeyPrivate", dsaSk65 seed, "ML-DSA-65", ts, uuid⟩
    match mpub with
    | none => none
    | some m =>
      let mh := key_hash (b64e m.key)
      match sign_master_key mpriv (serializeIdentityKey pubObj) mh with
      | none => none
      | some sg => some (pubObj, privObj, sg)

/-- `account_key::is_valid_account_key_public`. -/
def is_valid_account_key_public (ak : Option AccountKey) : Bool :=
  match ak with
  | none => false
  | some a =>
    a.keyType == "accountKeyPublic" && a.algorithm == "ML-KEM-768" &&
    is_valid_kem_key a.key true

/-- `account_key::is_valid_account_key_private`. -/
def is_valid_account_key_private (ak : Option AccountKey) : Bool :=
  match ak with
  | none => false
  | some a =>
    a.keyType == "accountKeyPrivate" && a.algorithm == "ML-KEM-768" &&
    is_valid_kem_key a.key false

/-- `account_key::generate_account_key`: requires a valid master key
pair, generates an ML-KEM-768 pair, and signs the serialized public
record using the hash of the whole master public record text. -/
def generate_account_key (mpub mpriv : Option MasterKey) (seed ts : Nat) :
    Option (AccountKey × AccountKey × Sign) :=
  if !is_valid_master_key_public mpub || !is_valid_master_key_private mpriv then none
  else
    let pubObj : AccountKey := ⟨"accountKeyPublic", kemPk seed, "ML-KEM-768", ts⟩
    let privObj : AccountKey := ⟨"accountKeyPrivate", kemSk seed, "ML-KEM-768", ts⟩
    match mpub with
    | none => none
    | some m =>
      let mh := key_hash (serializeMasterKey m)
      match sign_master_key mpriv (serializeAccountKey pubObj) mh with
      | none => none
      | some sg => some (pubObj, privObj, sg)

/-- `account_key::encrypt_data_account_key`: validate the public record,
run the hybrid pipeline, emit an envelope carrying the hash of the
public-record text and the KEM ciphertext. -/
def encrypt_data_account_key (ak : Option AccountKey) (data : String) (r iv : Bytes) :
    Outcome EncryptedData :=
  if !is_valid_account_key_public ak then .absent
  else
    match ak with
    | none => .absent
    | some a =>
      match encrypt data a.key r iv with
      | .panics => .panics
      | .absent => .absent
      | .ok enc =>
        .ok ⟨"accountKey", sha256Bytes (serializeAccountKey a), enc.encryptedData,
             enc.iv, some enc.algorithm, some enc.cipherText⟩

/-- `account_key::is_valid_encrypted_data_account_key`: role tag,
algorithm, 32-byte `keyHash`, 12-byte `iv`, decodable `encryptedData`
and a present, decodable `cipherText`. -/
def is_valid_encrypted_data_account_key (ed : Option EncryptedData) : Bool :=
  match ed with
  | none => false
  | some e =>
    e.keyType == "accountKey" && e.algorithm == some "AES-GCM" &&
    e.keyHash.length == 32 && e.iv.length == 12 && e.cipherText.isSome

/-- `account_key::decrypt_data_account_key`: validates both records,
then runs the hybrid decryption; the envelope's `keyHash` is never
compared with the supplied key. -/
def decrypt_data_account_key (ak : Option AccountKey) (ed : Option EncryptedData) :
    Outcome String :=
  if !is_valid_account_key_private ak || !is_valid_encrypted_data_account_key ed then .absent
  else
    match ak, ed with
    | some a, some e =>
      match e.cipherText with
      | none => .absent
      | some ct => decrypt e.encryptedData ct e.iv a.key
    | _, _ => .absent

/-- `room_key::generate_room_key`: requires a UUIDv7 room id; the key is
32 fresh RNG bytes (seed `seed`). -/
def generate_room_key (roomUuid : String) (seed ts : Nat) : Option RoomKey :=
  if !is_valid_uuid_v7 roomUuid then none
  else some ⟨"roomKey", generate_symmetric_key seed, "AES-GCM", ts, roomUuid⟩

/-- `room_key::is_valid_room_key`: role tag, algorithm and UUIDv7 — the
decoded key length is NOT checked. -/
def is_valid_room_key (rk : Option RoomKey) : Bool :=
  match rk with
  | none => false
  | some r =>
    r.keyType == "roomKey" && r.algorithm == "AES-GCM" && is_valid_uuid_v7 r.sessionUuid

/-- `room_key::encrypt_data_room_key`. -/
def encrypt_data_room_key (rk : Option RoomKey) (data : String) (iv : Bytes) :
    Outcome EncryptedData :=
  if !is_valid_room_key rk then .absent
  else
    match rk with
    | none => .absent
    | some r =>
      match encrypt_with_symmetric_key data r.key iv with
      | .panics => .panics
      | .absent => .absent
      | .ok enc =>
        .ok ⟨"roomKey", sha256Bytes (serializeRoomKey r), enc.encryptedData,
             enc.iv, some enc.algorithm, none⟩

/-- `room_key::decrypt_data_room_key`: validates only the key record
(not the envelope) and runs the symmetric decryption. -/
def decrypt_data_room_key (rk : Option RoomKey) (ed : Option EncryptedData) :
    Outcome String :=
  if !is_valid_room_key rk then .absent
  else
    match rk, ed with
    | some r, some e => decrypt_with_symmetric_key e.encryptedData e.iv r.key
    | _, _ => .absent

/-- `room_key::is_valid_encrypted_data_room_key`: role tag only. -/
def is_valid_encrypted_data_room_key (ed : Option EncryptedData) : Bool :=
  match ed with
  | none => false
  | some e => e.keyType == "roomKey"

/-- `share_key::is_valid_encrypted_data_share_key`: role tag only. -/
def is_valid_encrypted_data_share_key (ed : Option EncryptedData) : Bool :=
  match ed with
  | none => false
  | some e => e.keyType == "shareKey"

/-- `migrate_key::is_valid_encrypted_data_migrate_key`: role tag only. -/
def is_valid_encrypted_data_migrate_key (ed : Option EncryptedData) : Bool :=
  match ed with
  | none => false
  | some e => e.keyType == "migrateKey"

/-- `device_key::is_valid_encrypted_data_device_key`: role tag only. -/
def is_valid_encrypted_data_device_key (ed : Option EncryptedData) : Bool :=
  match ed with
  | none => false
  | some e => e.keyType == "deviceKey"

/-- Reinterpretation of a `u64` value as an `i64` (`as i64` cast). -/
def i64ofU64 (x : Nat) : Int :=
  if x < 2 ^ 63 then (x : Int) else (x : Int) - 2 ^ 64

/-- Two's-complement wrap of an integer into the `i64` range
(release-mode wrapping subtraction). -/
def wrapI64 (z : Int) : Int := (z + 2 ^ 63) % 2 ^ 64 - 2 ^ 63

/-- Release-mode `i64::abs` (`i64::MIN` wraps to itself). -/
def i64abs (z : Int) : Int := if z = -(2 ^ 63) then -(2 ^ 63) else (z.natAbs : Int)

/-- `as u64` cast of an `i64` value. -/
def u64ofI64 (z : Int) : Nat := (z % 2 ^ 64).toNat

/-- The freshness test of `message::decrypt_message` line 49:
`(timestamp as i64 - server_timestamp as i64).abs() as u64 > 60000`. -/
def freshness_exceeded (t s : Nat) : Bool :=
  u64ofI64 (i64abs (wrapI64 (i64ofU64 t - i64ofU64 s))) > 60000

/-- A JSON `value` field of a message: either a JSON string (paired
with its parse-as-`EncryptedData` result, used on the encrypted path)
or some non-string JSON value (opaque id). -/
inductive MsgValue where
  | str : String → Option EncryptedData → MsgValue
  | nonStr : Nat → MsgValue
deriving Repr, DecidableEq

/-- The field accesses `v.get(..)` / `as_*()` performed by
`decrypt_message` on the parsed message JSON; `none` models a missing
field or a wrong JSON type. -/
structure ParsedMsg where
  encrypted : Option Bool
  timestamp : Option Nat
  channel : Option String
  isLarge : Option Bool
  original : Option String
  roomid : Option String
  value : Option MsgValue
deriving Repr, DecidableEq

/-- The two probes `val_json.get("text").is_some()` and
`val_json.get("uri").is_some()` on the decrypted plaintext, once it has
parsed as JSON. -/
structure JsonProbe where
  hasText : Bool
  hasUri : Bool
deriving Repr, DecidableEq

/-- The `value` field of the JSON object `decrypt_message` returns. -/
inductive OutValue where
  | raw : MsgValue → OutValue
  | wrapped : String → String → OutValue
deriving Repr, DecidableEq

/-- The JSON object `decrypt_message` serializes on success. -/
structure OutMsg where
  encrypted : Bool
  value : OutValue
  channel : String
  original : Option String
  timestamp : Nat
  isLarge : Bool
  roomid : String
deriving Repr, DecidableEq

/-- `message::decrypt_message`.  `parsed` is the JSON parse of the raw
signed text `msg`, `sign` the parse of the signature envelope, and
`probe` the JSON parse (field probe) of a decrypted plaintext, all
supplied by the external JSON layer. -/
def decrypt_message (msg : String) (parsed : Option ParsedMsg) (sign : Option Sign)
    (serverTimestamp : Nat) (roomKey : Option RoomKey) (identityPub : Option IdentityKey)
    (roomid : String) (probe : String → Option JsonProbe) : Outcome OutMsg :=
  if !is_valid_identity_key_public identityPub then .absent
  else if !verify_identity_key identityPub sign msg then .absent
  else
    match parsed with
    | none => .absent
    | some v =>
      match v.encrypted with
      | none => .absent
      | some encrypted =>
      match v.timestamp with
      | none => .absent
      | some timestamp =>
      match v.channel with
      | none => .absent
      | some channel =>
      match v.isLarge with
      | none => .absent
      | some isLarge =>
      let original := v.original
      match v.roomid with
      | none => .absent
      | some rid =>
      if rid != roomid || freshness_exceeded timestamp serverTimestamp then .absent
      else if !encrypted then
        match v.value with
        | none => .absent
        | some val => .ok ⟨false, .raw val, channel, original, timestamp, isLarge, roomid⟩
      else
        if !is_valid_room_key roomKey then .absent
        else
          match v.value with
          | some (.str _ edParse) =>
            if !is_valid_encrypted_data_room_key edParse then .absent
            else
              match decrypt_data_room_key roomKey edParse with
              | .panics => .panics
              | .absent => .absent
              | .ok decrypted =>
                match probe decrypted with
                | none => .absent
                | some pr =>
                  let ctype := if pr.hasText then "text"
                               else if pr.hasUri then "image" else "text"
                  .ok ⟨false, .wrapped ctype decrypted, channel, original,
                       timestamp, isLarge, roomid⟩
          | _ => .absent

/-- One element of the `users` array handed to
`encrypt_room_key_with_account_keys`: the outer `Option` of each field
models `u.get(..)?.as_str()?`, the inner `Option AccountKey` the later
parse of the `accountKey` string. -/
structure UserEntry where
  userId : Option String
  accountKey : Option (Option AccountKey)
deriving Repr, DecidableEq

/-- One element of the output array: `{userId, encryptedData}`. -/
structure FanoutEntry where
  userId : String
  encryptedData : EncryptedData
deriving Repr, DecidableEq

/-- The loop of `message::encrypt_room_key_with_account_keys`: a missing
`accountKey` or `userId` field aborts the whole call (the `?` operator
returns `None` from the function); a failed encryption merely skips the
entry.  `rnd i` is the RNG draw (encapsulation randomness, IV) of the
`i`-th iteration. -/
def fanoutGo (users : List UserEntry) (rnd : Nat → Bytes × Bytes) (rkJson : String)
    (i : Nat) : Outcome (List FanoutEntry) :=
  match users with
  | [] => .ok []
  | u :: rest =>
    match u.accountKey with
    | none => .absent
    | some akParse =>
      match u.userId with
      | none => .absent
      | some uid =>
        match encrypt_data_account_key akParse rkJson (rnd i).1 (rnd i).2 with
        | .panics => .panics
        | .absent => fanoutGo rest rnd rkJson (i + 1)
        | .ok ed =>
          match fanoutGo rest rnd rkJson (i + 1) with
          | .panics => .panics
          | .absent => .absent
          | .ok tail => .ok (⟨uid, ed⟩ :: tail)

/-- `message::encrypt_room_key_with_account_keys` over an already
parsed `users` array. -/
def encrypt_room_key_with_account_keys (users : List UserEntry)
    (rnd : Nat → Bytes × Bytes) (rkJson : String) : Outcome (List FanoutEntry) :=
  fanoutGo users rnd rkJson 0

/-- The specification's description of the fan-out ("one entry per
successfully encrypted input, in input order, failures dropped
silently"), for comparison with `fanoutGo`. -/
def fanoutSpec (users : List UserEntry) (rnd : Nat → Bytes × Bytes) (rkJson : String)
    (i : Nat) : List FanoutEntry :=
  match users with
  | [] => []
  | u :: rest =>
    match u.userId, u.accountKey with
    | some uid, some akParse =>
      match encrypt_data_account_key akParse rkJson (rnd i).1 (rnd i).2 with
      | .ok ed => ⟨uid, ed⟩ :: fanoutSpec rest rnd rkJson (i + 1)
      | _ => fanoutSpec rest rnd rkJson (i + 1)
    | _, _ => fanoutSpec rest rnd rkJson (i + 1)

/-- The five encrypted-envelope roles that expose an
`is_valid_encrypted_data_*` validator. -/
inductive EncRole where
  | accountKey | roomKey | shareKey | migrateKey | deviceKey
deriving Repr, DecidableEq

/-- The `keyType` domain tag each encrypted-envelope role writes. -/
def encTag : EncRole → String
  | .accountKey => "accountKey"
  | .roomKey => "roomKey"
  | .shareKey => "shareKey"
  | .migrateKey => "migrateKey"
  | .deviceKey => "deviceKey"

/-- Dispatch to the per-role envelope validator. -/
def is_valid_encrypted_data_for : EncRole → Option EncryptedData → Bool
  | .accountKey, ed => is_valid_encrypted_data_account_key ed
  | .roomKey, ed => is_valid_encrypted_data_room_key ed
  | .shareKey, ed => is_valid_encrypted_data_share_key ed
  | .migrateKey, ed => is_valid_encrypted_data_migrate_key ed
  | .deviceKey, ed => is_valid_encrypted_data_device_key ed

theorem encTag_inj (r s : EncRole) (h : encTag r = encTag s) : r = s := by
  cases r <;> cases s <;> first
  | rfl
  | exact absurd h (by decide)

/-- C6: an encrypted envelope carrying the `keyType` tag of one role is
rejected by the envelope validator of every other role — every
per-role validator requires its own tag. -/
theorem c6_cross_role_rejection (r s : EncRole) (ed : EncryptedData)
    (hne : r ≠ s) (htag : ed.keyType = encTag r) :
    is_valid_encrypted_data_for s (some ed) = false := by
  have hbe : (ed.keyType == encTag s) = false := by
    rw [htag]
    exact beq_eq_false_iff_ne.mpr (fun h => hne (encTag_inj r s h))
  cases s <;>
    simp only [encTag] at hbe <;>
    simp [is_valid_encrypted_data_for, is_valid_encrypted_data_account_key,
      is_valid_encrypted_data_room_key, is_valid_encrypted_data_share_key,
      is_valid_encrypted_data_migrate_key, is_valid_encrypted_data_device_key, hbe]

/-- Concrete instance of `c6_cross_role_rejection`: a `roomKey`-tagged
envelope is rejected by the account-key envelope validator. -/
theorem c6_cross_role_rejection_witness :
    (EncRole.roomKey ≠ EncRole.accountKey) ∧
    is_valid_encrypted_data_for EncRole.accountKey
      (some ⟨"roomKey", List.replicate 32 0, [1], List.replicate 12 0,
             some "AES-GCM", none⟩) = false :=
  ⟨by decide,
   c6_cross_role_rejection EncRole.roomKey EncRole.accountKey
     ⟨"roomKey", List.replicate 32 0, [1], List.replicate 12 0, some "AES-GCM", none⟩
     (by decide) rfl⟩

/-- C7: for a 32-byte key, symmetric decryption with the emitted
ciphertext and IV returns the original plaintext. -/
theorem c7_symmetric_roundtrip (p : String) (key iv : Bytes) (enc : SymmetricEncrypted)
    (hk : key.length = 32) (hiv : iv.length = 12)
    (henc : encrypt_with_symmetric_key p key iv = .ok enc) :
    decrypt_with_symmetric_key enc.encryptedData enc.iv key = .ok p := by
  unfold encrypt_with_symmetric_key at henc
  rw [if_neg (by omega)] at henc
  cases henc
  simp [decrypt_with_symmetric_key, hk, hiv, aead_roundtrip, bytesStr_strBytes]

/-- Concrete instance of `c7_symmetric_roundtrip` at a 32-byte zero key
and the plaintext `"hi"`. -/
theorem c7_symmetric_roundtrip_witness :
    (List.replicate 32 0 : Bytes).length = 32 ∧
    decrypt_with_symmetric_key
      (aeadEncrypt (List.replicate 32 0) (List.replicate 12 1) (strBytes "hi"))
      (List.replicate 12 1) (List.replicate 32 0) = .ok "hi" :=
  ⟨by decide,
   c7_symmetric_roundtrip "hi" (List.replicate 32 0) (List.replicate 12 1)
     ⟨aeadEncrypt (List.replicate 32 0) (List.replicate 12 1) (strBytes "hi"),
      List.replicate 12 1, "AES-GCM"⟩
     (by decide) (by decide) (by decide)⟩

/-- C8: for both the account-key and the room-key roles, decryption is
invariant under changing the envelope's `keyHash` (among envelopes that
pass the role's structural validation); the decryption path never
compares it with the supplied key record. -/
theorem c8_keyhash_ignored :
    (∀ (ak : Option AccountKey) (ed : EncryptedData) (h2 : Bytes),
      is_valid_encrypted_data_account_key (some ed) = true →
      is_valid_encrypted_data_account_key (some { ed with keyHash := h2 }) = true →
      decrypt_data_account_key ak (some ed) =
        decrypt_data_account_key ak (some { ed with keyHash := h2 })) ∧
    (∀ (rk : Option RoomKey) (ed : EncryptedData) (h2 : Bytes),
      is_valid_encrypted_data_room_key (some ed) = true →
      is_valid_encrypted_data_room_key (some { ed with keyHash := h2 }) = true →
      decrypt_data_room_key rk (some ed) =
        decrypt_data_room_key rk (some { ed with keyHash := h2 })) := by
  constructor
  · intro ak ed h2 hv1 hv2
    cases hak : is_valid_account_key_private ak with
    | false => simp [decrypt_data_account_key, hak]
    | true =>
      cases ak with
      | none => simp [is_valid_account_key_private] at hak
      | some a => simp [decrypt_data_account_key, hak, hv1, hv2]
  · intro rk ed h2 hv1 hv2
    cases hrk : is_valid_room_key rk with
    | false => simp [decrypt_data_room_key, hrk]
    | true =>
      cases rk with
      | none => simp [is_valid_room_key] at hrk
      | some r => simp [decrypt_data_room_key, hrk]

/-- Concrete instance of `c8_keyhash_ignored`: two account envelopes
differing only in `keyHash` decrypt identically. -/
theorem c8_keyhash_ignored_witness :
    is_valid_encrypted_data_account_key
      (some ⟨"accountKey", List.replicate 32 0, List.replicate 20 0, List.replicate 12 0,
             some "AES-GCM", some (List.replicate 8 0)⟩) = true ∧
    decrypt_data_account_key none
      (some ⟨"accountKey", List.replicate 32 0, List.replicate 20 0, List.replicate 12 0,
             some "AES-GCM", some (List.replicate 8 0)⟩) =
      decrypt_data_account_key none
        (some ⟨"accountKey", List.replicate 32 1, List.replicate 20 0, List.replicate 12 0,
               some "AES-GCM", some (List.replicate 8 0)⟩) :=
  ⟨by decide,
   c8_keyhash_ignored.1 none
     ⟨"accountKey", List.replicate 32 0, List.replicate 20 0, List.replicate 12 0,
      some "AES-GCM", some (List.replicate 8 0)⟩
     (List.replicate 32 1) (by decide) (by decide)⟩

/-- C10: `verify_identity_key` and `verify_master_key` ignore the sign
envelope's `keyHash` and `algorithm` fields — two sign objects with the
same `keyType` tag and signature bytes verify identically. -/
theorem c10_verify_ignores_keyhash_algorithm :
    (∀ (ik : Option IdentityKey) (s1 s2 : Sign) (d : String),
      s1.keyType = s2.keyType → s1.signature = s2.signature →
      verify_identity_key ik (some s1) d = verify_identity_key ik (some s2) d) ∧
    (∀ (mk : Option MasterKey) (s1 s2 : Sign) (d : String),
      s1.keyType = s2.keyType → s1.signature = s2.signature →
      verify_master_key mk (some s1) d = verify_master_key mk (some s2) d) := by
  constructor
  · intro ik s1 s2 d h1 h2
    cases ik with
    | none => rfl
    | some k => simp [verify_identity_key, h1, h2]
  · intro mk s1 s2 d h1 h2
    cases mk with
    | none => rfl
    | some m => simp [verify_master_key, h1, h2]

/-- Concrete instance of `c10_verify_ignores_keyhash_algorithm`: a wrong
`keyHash` and a missing `algorithm` do not change the verification
result. -/
theorem c10_verify_ignores_keyhash_algorithm_witness :
    verify_identity_key
      (some ⟨"identityKeyPublic", dsaPk65 1, "ML-DSA-65", 0,
             "018f1c4b-7b8a-7c9d-8e0f-1a2b3c4d5e6f"⟩)
      (some ⟨"hash-a", [7], "identityKey", some "ML-DSA-65"⟩) "d" =
    verify_identity_key
      (some ⟨"identityKeyPublic", dsaPk65 1, "ML-DSA-65", 0,
             "018f1c4b-7b8a-7c9d-8e0f-1a2b3c4d5e6f"⟩)
      (some ⟨"hash-b", [7], "identityKey", none⟩) "d" :=
  c10_verify_ignores_keyhash_algorithm.1
    (some ⟨"identityKeyPublic", dsaPk65 1, "ML-DSA-65", 0,
           "018f1c4b-7b8a-7c9d-8e0f-1a2b3c4d5e6f"⟩)
    ⟨"hash-a", [7], "identityKey", some "ML-DSA-65"⟩
    ⟨"hash-b", [7], "identityKey", none⟩ "d" rfl rfl


theorem encrypt_data_account_key_ne_panics (ak : Option AccountKey) (rk : String)
    (r iv : Bytes) : encrypt_data_account_key ak rk r iv ≠ .panics := by
  unfold encrypt_data_account_key
  by_cases h : is_valid_account_key_public ak
  · cases ak with
    | none => simp [is_valid_account_key_public] at h
    | some a =>
      have hlen : a.key.length = 1184 := by
        simp [is_valid_account_key_public, is_valid_kem_key] at h
        exact h.2
      simp [h, encrypt, hlen]
  · simp [h]

/-- C9: in `encrypt_room_key_with_account_keys`, an entry missing a
string `userId` or `accountKey` field aborts the whole call with an
absent result; an entry whose (present) account key fails validation or
encryption is merely skipped and the rest are processed. -/
theorem c9_missing_field_aborts :
    (∀ (users : List UserEntry) (rnd : Nat → Bytes × Bytes) (rk : String) (i : Nat),
      (∃ u ∈ users, u.userId = none ∨ u.accountKey = none) →
      fanoutGo users rnd rk i = .absent) ∧
    (∀ (u : UserEntry) (rest : List UserEntry) (rnd : Nat → Bytes × Bytes) (rk : String)
       (i : Nat) (uid : String) (akp : Option AccountKey),
      u.userId = some uid → u.accountKey = some akp →
      encrypt_data_account_key akp rk (rnd i).1 (rnd i).2 = .absent →
      fanoutGo (u :: rest) rnd rk i = fanoutGo rest rnd rk (i + 1)) := by
  constructor
  · intro users rnd rk
    induction users with
    | nil => intro i h; simp at h
    | cons u rest ih =>
      intro i h
      rcases h with ⟨w, hw, hmiss⟩
      rcases List.mem_cons.mp hw with hw | hw
      · subst hw
        rcases hmiss with hmiss | hmiss
        · cases hak : w.accountKey with
          | none => simp [fanoutGo, hak]
          | some akp => simp [fanoutGo, hak, hmiss]
        · simp [fanoutGo, hmiss]
      · have hrest : fanoutGo rest rnd rk (i + 1) = .absent := ih (i + 1) ⟨w, hw, hmiss⟩
        cases hak : u.accountKey with
        | none => simp [fanoutGo, hak]
        | some akp =>
          cases huid : u.userId with
          | none => simp [fanoutGo, hak, huid]
          | some uid =>
            cases henc : encrypt_data_account_key akp rk (rnd i).1 (rnd i).2 with
            | panics => exact absurd henc (encrypt_data_account_key_ne_panics _ _ _ _)
            | absent => simp [fanoutGo, hak, huid, henc, hrest]
            | ok ed => simp [fanoutGo, hak, huid, henc, hrest]
  · intro u rest rnd rk i uid akp huid hak henc
    simp [fanoutGo, hak, huid, henc]

/-- Concrete instance of `c9_missing_field_aborts`: a one-entry list
whose entry lacks `userId` yields an absent result. -/
theorem c9_missing_field_aborts_witness :
    (∃ u ∈ [(⟨none, some none⟩ : UserEntry)], u.userId = none ∨ u.accountKey = none) ∧
    fanoutGo [⟨none, some none⟩] (fun _ => ([], [])) "rk" 0 = .absent :=
  ⟨⟨⟨none, some none⟩, by simp, Or.inl rfl⟩,
   c9_missing_field_aborts.1 [⟨none, some none⟩] (fun _ => ([], [])) "rk" 0
     ⟨⟨none, some none⟩, by simp, Or.inl rfl⟩⟩

/-- C5: when every entry carries both fields, the fan-out succeeds and
yields exactly the specification's list — one entry per successfully
encrypted input, in input order, failures dropped; and an envelope
emitted under a generated account public key decrypts under the
matching private key back to the exact room-key record text. -/
theorem c5_fanout_preservation :
    (∀ (users : List UserEntry) (rnd : Nat → Bytes × Bytes) (rk : String) (i : Nat),
      (∀ u ∈ users, u.userId.isSome ∧ u.accountKey.isSome) →
      fanoutGo users rnd rk i = .ok (fanoutSpec users rnd rk i)) ∧
    (∀ (seed ts : Nat) (rk : String) (r iv : Bytes) (ed : EncryptedData),
      iv.length = 12 →
      encrypt_data_account_key (some ⟨"accountKeyPublic", kemPk seed, "ML-KEM-768", ts⟩)
        rk r iv = .ok ed →
      decrypt_data_account_key (some ⟨"accountKeyPrivate", kemSk seed, "ML-KEM-768", ts⟩)
        (some ed) = .ok rk) := by
  constructor
  · intro users rnd rk
    induction users with
    | nil => intro i h; rfl
    | cons u rest ih =>
      intro i h
      obtain ⟨hu, ha⟩ := h u (by simp)
      obtain ⟨uid, huid⟩ := Option.isSome_iff_exists.mp hu
      obtain ⟨akp, hak⟩ := Option.isSome_iff_exists.mp ha
      have hrest := ih (i + 1) (fun w hw => h w (by simp [hw]))
      cases henc : encrypt_data_account_key akp rk (rnd i).1 (rnd i).2 with
      | panics => exact absurd henc (encrypt_data_account_key_ne_panics _ _ _ _)
      | absent => simp [fanoutGo, fanoutSpec, hak, huid, henc, hrest]
      | ok ed => simp [fanoutGo, fanoutSpec, hak, huid, henc, hrest]
  · intro seed ts rk r iv ed hiv henc
    have hvalid : is_valid_account_key_public
        (some ⟨"accountKeyPublic", kemPk seed, "ML-KEM-768", ts⟩) = true := by
      simp [is_valid_account_key_public, is_valid_kem_key, kemPk_length]
    unfold encrypt_data_account_key at henc
    rw [hvalid] at henc
    simp only [Bool.not_true, Bool.false_eq_true, if_false] at henc
    unfold encrypt at henc
    rw [if_neg (by simp [kemPk_length])] at henc
    simp only [Outcome.ok.injEq] at henc
    subst henc
    have hpriv : is_valid_account_key_private
        (some ⟨"accountKeyPrivate", kemSk seed, "ML-KEM-768", ts⟩) = true := by
      simp [is_valid_account_key_private, is_valid_kem_key, kemSk_length]
    have henv : is_valid_encrypted_data_account_key
        (some ⟨"accountKey",
          sha256Bytes (serializeAccountKey ⟨"accountKeyPublic", kemPk seed, "ML-KEM-768", ts⟩),
          aeadEncrypt (kemShared (kemPk seed) (kemCtFn (kemPk seed) r)) iv (strBytes rk),
          iv, some "AES-GCM", some (kemCtFn (kemPk seed) r)⟩) = true := by
      simp [is_valid_encrypted_data_account_key, sha256Bytes_length, hiv]
    unfold decrypt_data_account_key
    rw [hpriv, henv]
    simp only [Bool.not_true, Bool.false_or, Bool.false_eq_true, if_false]
    unfold decrypt
    rw [if_neg (by simp [kemSk_length]), if_neg (by simp [kemCtFn_length])]
    rw [if_neg (by simp [hiv])]
    rw [kemSk_take]
    simp [aead_roundtrip, bytesStr_strBytes]

/-- Concrete instance of `c5_fanout_preservation`: a two-entry list
(both account keys failing to parse) is processed in order with
failures dropped. -/
theorem c5_fanout_preservation_witness :
    (∀ u ∈ [(⟨some "u1", some none⟩ : UserEntry), ⟨some "u2", some none⟩],
      u.userId.isSome ∧ u.accountKey.isSome) ∧
    fanoutGo [⟨some "u1", some none⟩, ⟨some "u2", some none⟩] (fun _ => ([], []))
      "rk" 0 =
      .ok (fanoutSpec [⟨some "u1", some none⟩, ⟨some "u2", some none⟩]
        (fun _ => ([], [])) "rk" 0) :=
  ⟨by decide,
   c5_fanout_preservation.1 [⟨some "u1", some none⟩, ⟨some "u2", some none⟩]
     (fun _ => ([], [])) "rk" 0 (by decide)⟩

theorem dsaPk65_length (seed : Nat) : (dsaPk65 seed).length = 1952 := by
  rw [dsaPk65, List.length_replicate]

theorem dsaSk65_length (seed : Nat) : (dsaSk65 seed).length = 4032 := by
  rw [dsaSk65, List.length_append, dsaPk65, List.length_replicate, List.length_replicate]

theorem dsaPk87_length (seed : Nat) : (dsaPk87 seed).length = 2592 := by
  rw [dsaPk87, List.length_replicate]

theorem dsaSk87_length (seed : Nat) : (dsaSk87 seed).length = 4896 := by
  rw [dsaSk87, List.length_append, dsaPk87, List.length_replicate, List.length_replicate]

/-- The UUIDv7 used by the concrete scenarios (spec §8). -/
def uuidC : String := "018f1c4b-7b8a-7c9d-8e0f-1a2b3c4d5e6f"

/-- A freshly generated room-key record (seed 5, timestamp 7). -/
def roomC : RoomKey := ⟨"roomKey", generate_symmetric_key 5, "AES-GCM", 7, uuidC⟩

/-- C1 fails on the code: `is_valid_room_key` never decodes the key, so
truncating the decoded key of a freshly generated room key by one byte
still validates, where the claim requires rejection. -/
theorem c1_counterexample :
    generate_room_key uuidC 5 7 = some roomC ∧
    roomC.key.dropLast.length + 1 = roomC.key.length ∧
    is_valid_room_key (some { roomC with key := roomC.key.dropLast }) = true := by
  refine ⟨rfl, by decide, by decide⟩

/-- `type::ServerKey`. -/
structure ServerKey where
  keyType : String
  key : Bytes
  timestamp : Nat
deriving Repr, DecidableEq

/-- `type::ShareKey`. -/
structure ShareKey where
  keyType : String
  key : Bytes
  algorithm : String
  timestamp : Nat
  sessionUuid : String
deriving Repr, DecidableEq

/-- `type::ShareSignKey`. -/
structure ShareSignKey where
  keyType : String
  key : Bytes
  algorithm : String
  timestamp : Nat
  sessionUuid : String
deriving Repr, DecidableEq

/-- `type::MigrateKey`. -/
structure MigrateKey where
  keyType : String
  key : Bytes
  timestamp : Option Nat
deriving Repr, DecidableEq

/-- `type::DeviceKey`. -/
structure DeviceKey where
  keyType : String
  key : Bytes
deriving Repr, DecidableEq

/-- `serde_json::to_string` of a `ShareKey`. -/
def serializeShareKey (k : ShareKey) : String :=
  "\x7b\"keyType\":\"" ++ k.keyType ++ "\",\"key\":\"" ++ b64e k.key ++
  "\",\"algorithm\":\"" ++ k.algorithm ++ "\",\"timestamp\":" ++ toString k.timestamp ++
  ",\"sessionUuid\":\"" ++ k.sessionUuid ++ "\"\x7d"

/-- `serde_json::to_string` of a `ShareSignKey`. -/
def serializeShareSignKey (k : ShareSignKey) : String :=
  "\x7b\"keyType\":\"" ++ k.keyType ++ "\",\"key\":\"" ++ b64e k.key ++
  "\",\"algorithm\":\"" ++ k.algorithm ++ "\",\"timestamp\":" ++ toString k.timestamp ++
  ",\"sessionUuid\":\"" ++ k.sessionUuid ++ "\"\x7d"

/-- `server_key::is_valid_server_key_public`: role tag and decoded
length 1952. -/
def is_valid_server_key_public (sk : Option ServerKey) : Bool :=
  match sk with
  | none => false
  | some k => k.keyType == "serverKeyPublic" && k.key.length == 1952

/-- `server_key::is_valid_server_key_private`: role tag and decoded
length 4032. -/
def is_valid_server_key_private (sk : Option ServerKey) : Bool :=
  match sk with
  | none => false
  | some k => k.keyType == "serverKeyPrivate" && k.key.length == 4032

/-- `share_key::is_valid_share_key_public`: role tag and decoded length
1184 — the `algorithm` and `sessionUuid` fields are NOT checked. -/
def is_valid_share_key_public (sk : Option ShareKey) : Bool :=
  match sk with
  | none => false
  | some k => k.keyType == "shareKeyPublic" && k.key.length == 1184

/-- `share_key::is_valid_share_key_private`: role tag and decoded
length 2400. -/
def is_valid_share_key_private (sk : Option ShareKey) : Bool :=
  match sk with
  | none => false
  | some k => k.keyType == "shareKeyPrivate" && k.key.length == 2400

/-- `share_key::is_valid_share_sign_key_public`: role tag ONLY — no
length, algorithm or sessionUuid check. -/
def is_valid_share_sign_key_public (sk : Option ShareSignKey) : Bool :=
  match sk with
  | none => false
  | some k => k.keyType == "shareSignKeyPublic"

/-- `share_key::is_valid_share_sign_key_private`: role tag only. -/
def is_valid_share_sign_key_private (sk : Option ShareSignKey) : Bool :=
  match sk with
  | none => false
  | some k => k.keyType == "shareSignKeyPrivate"

/-- `migrate_key::is_valid_migrate_key_public`: role tag and decoded
length 1184. -/
def is_valid_migrate_key_public (mk : Option MigrateKey) : Bool :=
  match mk with
  | none => false
  | some k => k.keyType == "migrateKeyPublic" && k.key.length == 1184

/-- `migrate_key::is_valid_migrate_key_private`: role tag and decoded
length 2400. -/
def is_valid_migrate_key_private (mk : Option MigrateKey) : Bool :=
  match mk with
  | none => false
  | some k => k.keyType == "migrateKeyPrivate" && k.key.length == 2400

/-- `device_key::is_valid_device_key`: decoded length 32 ONLY — the
`keyType` field is never read (device_key.rs:15-19). -/
def is_valid_device_key (dk : Option DeviceKey) : Bool :=
  match dk with
  | none => false
  | some d => d.key.length == 32

/-- `master_key::generate_master_key`: an ML-DSA-87 pair (RNG seed as
argument); never fails. -/
def generate_master_key (seed : Nat) : MasterKey × MasterKey :=
  (⟨"masterKeyPublic", dsaPk87 seed⟩, ⟨"masterKeyPrivate", dsaSk87 seed⟩)

/-- `server_key::generate_server_key`: an ML-DSA-65 pair with wall
time. -/
def generate_server_key (seed ts : Nat) : ServerKey × ServerKey :=
  (⟨"serverKeyPublic", dsaPk65 seed, ts⟩, ⟨"serverKeyPrivate", dsaSk65 seed, ts⟩)

/-- `share_key::generate_share_key`: requires a valid master private
record and a UUIDv7, generates an ML-KEM-768 pair and signs the
serialized public record with the hash of the master private record
text. -/
def generate_share_key (masterPriv : Option MasterKey) (sessionUuid : String)
    (seed ts : Nat) : Option (ShareKey × ShareKey × Sign) :=
  if !is_valid_master_key_private masterPriv || !is_valid_uuid_v7 sessionUuid then none
  else
    let pk : ShareKey := ⟨"shareKeyPublic", kemPk seed, "ML-KEM-768", ts, sessionUuid⟩
    let sk : ShareKey := ⟨"shareKeyPrivate", kemSk seed, "ML-KEM-768", ts, sessionUuid⟩
    match masterPriv with
    | none => none
    | some m =>
      let mh := key_hash (serializeMasterKey m)
      match sign_master_key (some m) (serializeShareKey pk) mh with
      | none => none
      | some sg => some (pk, sk, sg)

/-- `share_key::generate_share_sign_key`: like `generate_share_key`
with an ML-DSA-65 pair. -/
def generate_share_sign_key (masterPriv : Option MasterKey) (sessionUuid : String)
    (seed ts : Nat) : Option (ShareSignKey × ShareSignKey × Sign) :=
  if !is_valid_master_key_private masterPriv || !is_valid_uuid_v7 sessionUuid then none
  else
    let pk : ShareSignKey := ⟨"shareSignKeyPublic", dsaPk65 seed, "ML-DSA-65", ts, sessionUuid⟩
    let sk : ShareSignKey := ⟨"shareSignKeyPrivate", dsaSk65 seed, "ML-DSA-65", ts, sessionUuid⟩
    match masterPriv with
    | none => none
    | some m =>
      let mh := key_hash (serializeMasterKey m)
      match sign_master_key (some m) (serializeShareSignKey pk) mh with
      | none => none
      | some sg => some (pk, sk, sg)

/-- `migrate_key::generate_migrate_key`: an ML-KEM-768 pair with no
timestamp; never fails. -/
def generate_migrate_key (seed : Nat) : MigrateKey × MigrateKey :=
  (⟨"migrateKeyPublic", kemPk seed, none⟩, ⟨"migrateKeyPrivate", kemSk seed, none⟩)

/-- `device_key::generate_device_key`: a 32-byte symmetric key record;
never fails. -/
def generate_device_key (seed : Nat) : DeviceKey :=
  ⟨"deviceKey", generate_symmetric_key seed⟩

/-- C1 amended: every validator in the code accepts a freshly generated
record of its role.  `keyType` substitution is rejected by every
validator except `is_valid_device_key`, which never reads `keyType`, so
a `keyType`-substituted fresh device key still validates.  `algorithm`
substitution is rejected only by the identity-key, account-key and
room-key validators; the share-key and share-sign-key validators ignore
the `algorithm` field.  A non-UUIDv7 `sessionUuid` is rejected only by
the identity-key and room-key validators; the share-key and
share-sign-key validators ignore `sessionUuid`.  One-byte truncation or
extension of the decoded key is rejected only by validators that decode
the key and check its length (master, account, server, shareKey,
migrate, device); the room-key, identity-key and share-sign-key
validators perform no length check, so there the mutated record still
validates.  (The migrateSignKey role has no record validator.) -/
theorem c1_discriminator_laws_amended :
    (∀ (u : String) (seed ts : Nat) (rk : RoomKey),
      generate_room_key u seed ts = some rk →
      is_valid_room_key (some rk) = true ∧
      (∀ t, t ≠ "roomKey" → is_valid_room_key (some { rk with keyType := t }) = false) ∧
      (∀ a, a ≠ "AES-GCM" → is_valid_room_key (some { rk with algorithm := a }) = false) ∧
      (∀ u2, is_valid_uuid_v7 u2 = false →
        is_valid_room_key (some { rk with sessionUuid := u2 }) = false) ∧
      is_valid_room_key (some { rk with key := rk.key.dropLast }) = true ∧
      (∀ b, is_valid_room_key (some { rk with key := rk.key ++ [b] }) = true)) ∧
    (∀ (u : String) (mpub mpriv : Option MasterKey) (seed ts : Nat)
       (pub priv : IdentityKey) (sg : Sign),
      generate_identity_key u mpub mpriv seed ts = some (pub, priv, sg) →
      is_valid_identity_key_public (some pub) = true ∧
      is_valid_identity_key_private (some priv) = true ∧
      (∀ t, t ≠ "identityKeyPublic" →
        is_valid_identity_key_public (some { pub with keyType := t }) = false) ∧
      (∀ t, t ≠ "identityKeyPrivate" →
        is_valid_identity_key_private (some { priv with keyType := t }) = false) ∧
      (∀ a, a ≠ "ML-DSA-65" →
        is_valid_identity_key_public (some { pub with algorithm := a }) = false) ∧
      (∀ a, a ≠ "ML-DSA-65" →
        is_valid_identity_key_private (some { priv with algorithm := a }) = false) ∧
      (∀ u2, is_valid_uuid_v7 u2 = false →
        is_valid_identity_key_public (some { pub with sessionUuid := u2 }) = false) ∧
      (∀ u2, is_valid_uuid_v7 u2 = false →
        is_valid_identity_key_private (some { priv with sessionUuid := u2 }) = false) ∧
      is_valid_identity_key_public (some { pub with key := pub.key.dropLast }) = true ∧
      is_valid_identity_key_private (some { priv with key := priv.key.dropLast }) = true ∧
      (∀ b, is_valid_identity_key_public (some { pub with key := pub.key ++ [b] }) = true) ∧
      (∀ b, is_valid_identity_key_private (some { priv with key := priv.key ++ [b] }) = true)) ∧
    (∀ (mpub mpriv : Option MasterKey) (seed ts : Nat)
       (pub priv : AccountKey) (sg : Sign),
      generate_account_key mpub mpriv seed ts = some (pub, priv, sg) →
      is_valid_account_key_public (some pub) = true ∧
      is_valid_account_key_private (some priv) = true ∧
      (∀ t, t ≠ "accountKeyPublic" →
        is_valid_account_key_public (some { pub with keyType := t }) = false) ∧
      (∀ t, t ≠ "accountKeyPrivate" →
        is_valid_account_key_private (some { priv with keyType := t }) = false) ∧
      (∀ a, a ≠ "ML-KEM-768" →
        is_valid_account_key_public (some { pub with algorithm := a }) = false) ∧
      (∀ a, a ≠ "ML-KEM-768" →
        is_valid_account_key_private (some { priv with algorithm := a }) = false) ∧
      is_valid_account_key_public (some { pub with key := pub.key.dropLast }) = false ∧
      is_valid_account_key_private (some { priv with key := priv.key.dropLast }) = false ∧
      (∀ b, is_valid_account_key_public (some { pub with key := pub.key ++ [b] }) = false) ∧
      (∀ b, is_valid_account_key_private (some { priv with key := priv.key ++ [b] }) = false)) ∧
    (∀ seed : Nat,
      is_valid_master_key_public (some (generate_master_key seed).1) = true ∧
      is_valid_master_key_private (some (generate_master_key seed).2) = true ∧
      (∀ t, t ≠ "masterKeyPublic" →
        is_valid_master_key_public (some { (generate_master_key seed).1 with keyType := t }) = false) ∧
      (∀ t, t ≠ "masterKeyPrivate" →
        is_valid_master_key_private (some { (generate_master_key seed).2 with keyType := t }) = false) ∧
      is_valid_master_key_public
        (some { (generate_master_key seed).1 with
                key := (generate_master_key seed).1.key.dropLast }) = false ∧
      is_valid_master_key_private
        (some { (generate_master_key seed).2 with
                key := (generate_master_key seed).2.key.dropLast }) = false ∧
      (∀ b, is_valid_master_key_public
        (some { (generate_master_key seed).1 with
                key := (generate_master_key seed).1.key ++ [b] }) = false) ∧
      (∀ b, is_valid_master_key_private
        (some { (generate_master_key seed).2 with
                key := (generate_master_key seed).2.key ++ [b] }) = false)) ∧
    (∀ seed ts : Nat,
      is_valid_server_key_public (some (generate_server_key seed ts).1) = true ∧
      is_valid_server_key_private (some (generate_server_key seed ts).2) = true ∧
      (∀ t, t ≠ "serverKeyPublic" →
        is_valid_server_key_public (some { (generate_server_key seed ts).1 with keyType := t }) = false) ∧
      (∀ t, t ≠ "serverKeyPrivate" →
        is_valid_server_key_private (some { (generate_server_key seed ts).2 with keyType := t }) = false) ∧
      is_valid_server_key_public
        (some { (generate_server_key seed ts).1 with
                key := (generate_server_key seed ts).1.key.dropLast }) = false ∧
      is_valid_server_key_private
        (some { (generate_server_key seed ts).2 with
                key := (generate_server_key seed ts).2.key.dropLast }) = false ∧
      (∀ b, is_valid_server_key_public
        (some { (generate_server_key seed ts).1 with
                key := (generate_server_key seed ts).1.key ++ [b] }) = false) ∧
      (∀ b, is_valid_server_key_private
        (some { (generate_server_key seed ts).2 with
                key := (generate_server_key seed ts).2.key ++ [b] }) = false)) ∧
    (∀ (mpriv : Option MasterKey) (u : String) (seed ts : Nat)
       (pub priv : ShareKey) (sg : Sign),
      generate_share_key mpriv u seed ts = some (pub, priv, sg) →
      is_valid_share_key_public (some pub) = true ∧
      is_valid_share_key_private (some priv) = true ∧
      (∀ t, t ≠ "shareKeyPublic" →
        is_valid_share_key_public (some { pub with keyType := t }) = false) ∧
      (∀ t, t ≠ "shareKeyPrivate" →
        is_valid_share_key_private (some { priv with keyType := t }) = false) ∧
      (∀ a, is_valid_share_key_public (some { pub with algorithm := a }) = true) ∧
      (∀ a, is_valid_share_key_private (some { priv with algorithm := a }) = true) ∧
      (∀ u2, is_valid_share_key_public (some { pub with sessionUuid := u2 }) = true) ∧
      (∀ u2, is_valid_share_key_private (some { priv with sessionUuid := u2 }) = true) ∧
      is_valid_share_key_public (some { pub with key := pub.key.dropLast }) = false ∧
      is_valid_share_key_private (some { priv with key := priv.key.dropLast }) = false ∧
      (∀ b, is_valid_share_key_public (some { pub with key := pub.key ++ [b] }) = false) ∧
      (∀ b, is_valid_share_key_private (some { priv with key := priv.key ++ [b] }) = false)) ∧
    (∀ (mpriv : Option MasterKey) (u : String) (seed ts : Nat)
       (pub priv : ShareSignKey) (sg : Sign),
      generate_share_sign_key mpriv u seed ts = some (pub, priv, sg) →
      is_valid_share_sign_key_public (some pub) = true ∧
      is_valid_share_sign_key_private (some priv) = true ∧
      (∀ t, t ≠ "shareSignKeyPublic" →
        is_valid_share_sign_key_public (some { pub with keyType := t }) = false) ∧
      (∀ t, t ≠ "shareSignKeyPrivate" →
        is_valid_share_sign_key_private (some { priv with keyType := t }) = false) ∧
      (∀ a, is_valid_share_sign_key_public (some { pub with algorithm := a }) = true) ∧
      (∀ a, is_valid_share_sign_key_private (some { priv with algorithm := a }) = true) ∧
      (∀ u2, is_valid_share_sign_key_public (some { pub with sessionUuid := u2 }) = true) ∧
      (∀ u2, is_valid_share_sign_key_private (some { priv with sessionUuid := u2 }) = true) ∧
      is_valid_share_sign_key_public (some { pub with key := pub.key.dropLast }) = true ∧
      is_valid_share_sign_key_private (some { priv with key := priv.key.dropLast }) = true ∧
      (∀ b, is_valid_share_sign_key_public (some { pub with key := pub.key ++ [b] }) = true) ∧
      (∀ b, is_valid_share_sign_key_private (some { priv with key := priv.key ++ [b] }) = true)) ∧
    (∀ seed : Nat,
      is_valid_migrate_key_public (some (generate_migrate_key seed).1) = true ∧
      is_valid_migrate_key_private (some (generate_migrate_key seed).2) = true ∧
      (∀ t, t ≠ "migrateKeyPublic" →
        is_valid_migrate_key_public (some { (generate_migrate_key seed).1 with keyType := t }) = false) ∧
      (∀ t, t ≠ "migrateKeyPrivate" →
        is_valid_migrate_key_private (some { (generate_migrate_key seed).2 with keyType := t }) = false) ∧
      is_valid_migrate_key_public
        (some { (generate_migrate_key seed).1 with
                key := (generate_migrate_key seed).1.key.dropLast }) = false ∧
      is_valid_migrate_key_private
        (some { (generate_migrate_key seed).2 with
                key := (generate_migrate_key seed).2.key.dropLast }) = false ∧
      (∀ b, is_valid_migrate_key_public
        (some { (generate_migrate_key seed).1 with
                key := (generate_migrate_key seed).1.key ++ [b] }) = false) ∧
      (∀ b, is_valid_migrate_key_private
        (some { (generate_migrate_key seed).2 with
                key := (generate_migrate_key seed).2.key ++ [b] }) = false)) ∧
    (∀ seed : Nat,
      is_valid_device_key (some (generate_device_key seed)) = true ∧
      (∀ t, is_valid_device_key (some { generate_device_key seed with keyType := t }) = true) ∧
      is_valid_device_key
        (some { generate_device_key seed with
                key := (generate_device_key seed).key.dropLast }) = false ∧
      (∀ b, is_valid_device_key
        (some { generate_device_key seed with
                key := (generate_device_key seed).key ++ [b] }) = false)) := by
  refine ⟨?_, ?_, ?_, ?_, ?_, ?_, ?_, ?_, ?_⟩
  · intro u seed ts rk hgen
    unfold generate_room_key at hgen
    by_cases hu : is_valid_uuid_v7 u
    · simp only [hu, Bool.not_true, Bool.false_eq_true, if_false, Option.some.injEq] at hgen
      subst hgen
      refine ⟨by simp [is_valid_room_key, hu], ?_, ?_, ?_,
              by simp [is_valid_room_key, hu], fun b => by simp [is_valid_room_key, hu]⟩
      · intro t ht
        have hbe := beq_eq_false_iff_ne.mpr ht
        simp [is_valid_room_key, hbe]
      · intro a ha
        have hbe := beq_eq_false_iff_ne.mpr ha
        simp [is_valid_room_key, hbe]
      · intro u2 hu2
        simp [is_valid_room_key, hu2]
    · simp [hu] at hgen
  · intro u mpub mpriv seed ts pub priv sg hgen
    unfold generate_identity_key at hgen
    by_cases hu : is_valid_uuid_v7 u
    · by_cases hpr : is_valid_master_key_private mpriv
      · by_cases hpb : is_valid_master_key_public mpub
        · cases mpub with
          | none => simp [is_valid_master_key_public] at hpb
          | some m =>
            simp only [hu, hpr, hpb, Bool.not_true, Bool.false_eq_true, if_false] at hgen
            cases hs : sign_master_key mpriv
                (serializeIdentityKey ⟨"identityKeyPublic", dsaPk65 seed, "ML-DSA-65", ts, u⟩)
                (key_hash (b64e m.key)) with
            | none => rw [hs] at hgen; simp at hgen
            | some sg2 =>
              rw [hs] at hgen
              simp only [Option.some.injEq, Prod.mk.injEq] at hgen
              obtain ⟨h1, h2, h3⟩ := hgen
              subst h1
              subst h2
              refine ⟨by simp [is_valid_identity_key_public, hu],
                      by simp [is_valid_identity_key_private, hu],
                      ?_, ?_, ?_, ?_, ?_, ?_,
                      by simp [is_valid_identity_key_public, hu],
                      by simp [is_valid_identity_key_private, hu],
                      fun b => by simp [is_valid_identity_key_public, hu],
                      fun b => by simp [is_valid_identity_key_private, hu]⟩
              · intro t ht
                have hbe := beq_eq_false_iff_ne.mpr ht
                simp [is_valid_identity_key_public, hbe]
              · intro t ht
                have hbe := beq_eq_false_iff_ne.mpr ht
                simp [is_valid_identity_key_private, hbe]
              · intro a ha
                have hbe := beq_eq_false_iff_ne.mpr ha
                simp [is_valid_identity_key_public, hbe]
              · intro a ha
                have hbe := beq_eq_false_iff_ne.mpr ha
                simp [is_valid_identity_key_private, hbe]
              · intro u2 hu2
                simp [is_valid_identity_key_public, hu2]
              · intro u2 hu2
                simp [is_valid_identity_key_private, hu2]
        · simp [hu, hpr, hpb] at hgen
      · simp [hu, hpr] at hgen
    · simp [hu] at hgen
  · intro mpub mpriv seed ts pub priv sg hgen
    unfold generate_account_key at hgen
    by_cases hpb : is_valid_master_key_public mpub
    · by_cases hpr : is_valid_master_key_private mpriv
      · cases mpub with
        | none => simp [is_valid_master_key_public] at hpb
        | some m =>
          simp only [hpb, hpr, Bool.not_true, Bool.false_or, Bool.or_self,
            Bool.false_eq_true, if_false] at hgen
          cases hs : sign_master_key mpriv
              (serializeAccountKey ⟨"accountKeyPublic", kemPk seed, "ML-KEM-768", ts⟩)
              (key_hash (serializeMasterKey m)) with
          | none => rw [hs] at hgen; simp at hgen
          | some sg2 =>
            rw [hs] at hgen
            simp only [Option.some.injEq, Prod.mk.injEq] at hgen
            obtain ⟨h1, h2, h3⟩ := hgen
            subst h1
            subst h2
            refine ⟨by simp [is_valid_account_key_public, is_valid_kem_key, kemPk_length],
                    by simp [is_valid_account_key_private, is_valid_kem_key, kemSk_length],
                    ?_, ?_, ?_, ?_,
                    by simp [is_valid_account_key_public, is_valid_kem_key, kemPk_length],
                    by simp [is_valid_account_key_private, is_valid_kem_key, kemSk_length],
                    fun b => by simp [is_valid_account_key_public, is_valid_kem_key, kemPk_length],
                    fun b => by simp [is_valid_account_key_private, is_valid_kem_key, kemSk_length]⟩
            · intro t ht
              have hbe := beq_eq_false_iff_ne.mpr ht
              simp [is_valid_account_key_public, hbe]
            · intro t ht
              have hbe := beq_eq_false_iff_ne.mpr ht
              simp [is_valid_account_key_private, hbe]
            · intro a ha
              have hbe := beq_eq_false_iff_ne.mpr ha
              simp [is_valid_account_key_public, hbe]
            · intro a ha
              have hbe := beq_eq_false_iff_ne.mpr ha
              simp [is_valid_account_key_private, hbe]
      · simp [hpb, hpr] at hgen
    · simp [hpb] at hgen
  · intro seed
    refine ⟨by simp [generate_master_key, is_valid_master_key_public, is_valid_dsa87_key,
              dsaPk87_length],
            by simp [generate_master_key, is_valid_master_key_private, is_valid_dsa87_key,
              dsaSk87_length],
            ?_, ?_,
            by simp [generate_master_key, is_valid_master_key_public, is_valid_dsa87_key,
              List.length_dropLast, dsaPk87_length],
            by simp [generate_master_key, is_valid_master_key_private, is_valid_dsa87_key,
              List.length_dropLast, dsaSk87_length],
            fun b => by simp [generate_master_key, is_valid_master_key_public,
              is_valid_dsa87_key, dsaPk87_length],
            fun b => by simp [generate_master_key, is_valid_master_key_private,
              is_valid_dsa87_key, dsaSk87_length]⟩
    · intro t ht
      have hbe := beq_eq_false_iff_ne.mpr ht
      simp [generate_master_key, is_valid_master_key_public, hbe]
    · intro t ht
      have hbe := beq_eq_false_iff_ne.mpr ht
      simp [generate_master_key, is_valid_master_key_private, hbe]
  · intro seed ts
    refine ⟨by simp [generate_server_key, is_valid_server_key_public, dsaPk65_length],
            by simp [generate_server_key, is_valid_server_key_private, dsaSk65_length],
            ?_, ?_,
            by simp [generate_server_key, is_valid_server_key_public,
              List.length_dropLast, dsaPk65_length],
            by simp [generate_server_key, is_valid_server_key_private,
              List.length_dropLast, dsaSk65_length],
            fun b => by simp [generate_server_key, is_valid_server_key_public, dsaPk65_length],
            fun b => by simp [generate_server_key, is_valid_server_key_private, dsaSk65_length]⟩
    · intro t ht
      have hbe := beq_eq_false_iff_ne.mpr ht
      simp [generate_server_key, is_valid_server_key_public, hbe]
    · intro t ht
      have hbe := beq_eq_false_iff_ne.mpr ht
      simp [generate_server_key, is_valid_server_key_private, hbe]
  · intro mpriv u seed ts pub priv sg hgen
    unfold generate_share_key at hgen
    by_cases hpr : is_valid_master_key_private mpriv
    · by_cases hu : is_valid_uuid_v7 u
      · cases mpriv with
        | none => simp [is_valid_master_key_private] at hpr
        | some m =>
          simp only [hpr, hu, Bool.not_true, Bool.false_or, Bool.or_self,
            Bool.false_eq_true, if_false] at hgen
          cases hs : sign_master_key (some m)
              (serializeShareKey ⟨"shareKeyPublic", kemPk seed, "ML-KEM-768", ts, u⟩)
              (key_hash (serializeMasterKey m)) with
          | none => rw [hs] at hgen; simp at hgen
          | some sg2 =>
            rw [hs] at hgen
            simp only [Option.some.injEq, Prod.mk.injEq] at hgen
            obtain ⟨h1, h2, h3⟩ := hgen
            subst h1
            subst h2
            refine ⟨by simp [is_valid_share_key_public, kemPk_length],
                    by simp [is_valid_share_key_private, kemSk_length],
                    ?_, ?_,
                    fun a => by simp [is_valid_share_key_public, kemPk_length],
                    fun a => by simp [is_valid_share_key_private, kemSk_length],
                    fun u2 => by simp [is_valid_share_key_public, kemPk_length],
                    fun u2 => by simp [is_valid_share_key_private, kemSk_length],
                    by simp [is_valid_share_key_public, List.length_dropLast, kemPk_length],
                    by simp [is_valid_share_key_private, List.length_dropLast, kemSk_length],
                    fun b => by simp [is_valid_share_key_public, kemPk_length],
                    fun b => by simp [is_valid_share_key_private, kemSk_length]⟩
            · intro t ht
              have hbe := beq_eq_false_iff_ne.mpr ht
              simp [is_valid_share_key_public, hbe]
            · intro t ht
              have hbe := beq_eq_false_iff_ne.mpr ht
              simp [is_valid_share_key_private, hbe]
      · simp [hpr, hu] at hgen
    · simp [hpr] at hgen
  · intro mpriv u seed ts pub priv sg hgen
    unfold generate_share_sign_key at hgen
    by_cases hpr : is_valid_master_key_private mpriv
    · by_cases hu : is_valid_uuid_v7 u
      · cases mpriv with
        | none => simp [is_valid_master_key_private] at hpr
        | some m =>
          simp only [hpr, hu, Bool.not_true, Bool.false_or, Bool.or_self,
            Bool.false_eq_true, if_false] at hgen
          cases hs : sign_master_key (some m)
              (serializeShareSignKey ⟨"shareSignKeyPublic", dsaPk65 seed, "ML-DSA-65", ts, u⟩)
              (key_hash (serializeMasterKey m)) with
          | none => rw [hs] at hgen; simp at hgen
          | some sg2 =>
            rw [hs] at hgen
            simp only [Option.some.injEq, Prod.mk.injEq] at hgen
            obtain ⟨h1, h2, h3⟩ := hgen
            subst h1
            subst h2
            refine ⟨by simp [is_valid_share_sign_key_public],
                    by simp [is_valid_share_sign_key_private],
                    ?_, ?_,
                    fun a => by simp [is_valid_share_sign_key_public],
                    fun a => by simp [is_valid_share_sign_key_private],
                    fun u2 => by simp [is_valid_share_sign_key_public],
                    fun u2 => by simp [is_valid_share_sign_key_private],
                    by simp [is_valid_share_sign_key_public],
                    by simp [is_valid_share_sign_key_private],
                    fun b => by simp [is_valid_share_sign_key_public],
                    fun b => by simp [is_valid_share_sign_key_private]⟩
            · intro t ht
              have hbe := beq_eq_false_iff_ne.mpr ht
              simp [is_valid_share_sign_key_public, hbe]
            · intro t ht
              have hbe := beq_eq_false_iff_ne.mpr ht
              simp [is_valid_share_sign_key_private, hbe]
      · simp [hpr, hu] at hgen
    · simp [hpr] at hgen
  · intro seed
    refine ⟨by simp [generate_migrate_key, is_valid_migrate_key_public, kemPk_length],
            by simp [generate_migrate_key, is_valid_migrate_key_private, kemSk_length],
            ?_, ?_,
            by simp [generate_migrate_key, is_valid_migrate_key_public,
              List.length_dropLast, kemPk_length],
            by simp [generate_migrate_key, is_valid_migrate_key_private,
              List.length_dropLast, kemSk_length],
            fun b => by simp [generate_migrate_key, is_valid_migrate_key_public, kemPk_length],
            fun b => by simp [generate_migrate_key, is_valid_migrate_key_private, kemSk_length]⟩
    · intro t ht
      have hbe := beq_eq_false_iff_ne.mpr ht
      simp [generate_migrate_key, is_valid_migrate_key_public, hbe]
    · intro t ht
      have hbe := beq_eq_false_iff_ne.mpr ht
      simp [generate_migrate_key, is_valid_migrate_key_private, hbe]
  · intro seed
    exact ⟨by simp [generate_device_key, is_valid_device_key, generate_symmetric_key_length],
           fun t => by simp [generate_device_key, is_valid_device_key,
             generate_symmetric_key_length],
           by simp [generate_device_key, is_valid_device_key,
             List.length_dropLast, generate_symmetric_key_length],
           fun b => by simp [generate_device_key, is_valid_device_key,
             generate_symmetric_key_length]⟩

/-- A concrete master public record (seed 2). -/
def mpubC : MasterKey := ⟨"masterKeyPublic", dsaPk87 2⟩

/-- A concrete master private record (seed 2). -/
def mprivC : MasterKey := ⟨"masterKeyPrivate", dsaSk87 2⟩

/-- The account public record `generate_account_key` emits for seed 3,
timestamp 0. -/
def apubC : AccountKey := ⟨"accountKeyPublic", kemPk 3, "ML-KEM-768", 0⟩

/-- The matching account private record. -/
def aprivC : AccountKey := ⟨"accountKeyPrivate", kemSk 3, "ML-KEM-768", 0⟩

/-- The master signature emitted alongside `apubC`. -/
def asgC : Sign :=
  ⟨key_hash (serializeMasterKey mpubC),
   dsaSig87 ((dsaSk87 2).take 2592) (strBytes (serializeAccountKey apubC)),
   "masterKey", some "ML-DSA-87"⟩


theorem generate_account_key_eq (mpub mpriv : MasterKey) (seed ts : Nat)
    (hpb : is_valid_master_key_public (some mpub) = true)
    (hpr : is_valid_master_key_private (some mpriv) = true) :
    generate_account_key (some mpub) (some mpriv) seed ts =
      match sign_master_key (some mpriv)
        (serializeAccountKey ⟨"accountKeyPublic", kemPk seed, "ML-KEM-768", ts⟩)
        (key_hash (serializeMasterKey mpub)) with
      | none => none
      | some sg => some (⟨"accountKeyPublic", kemPk seed, "ML-KEM-768", ts⟩,
          ⟨"accountKeyPrivate", kemSk seed, "ML-KEM-768", ts⟩, sg) := by
  unfold generate_account_key
  rw [hpb, hpr]
  rfl

/-- Concrete instance of `c1_discriminator_laws_amended`: the truncated
fresh room key still validates, the truncated fresh account key does
not. -/
theorem c1_discriminator_laws_amended_witness :
    generate_room_key uuidC 5 7 = some roomC ∧
    is_valid_room_key (some { roomC with key := roomC.key.dropLast }) = true ∧
    generate_account_key (some mpubC) (some mprivC) 3 0 = some (apubC, aprivC, asgC) ∧
    is_valid_account_key_public (some { apubC with key := apubC.key.dropLast }) = false := by
  have hroom : generate_room_key uuidC 5 7 = some roomC := by decide
  have hpb : is_valid_master_key_public (some mpubC) = true := by
    show ((("masterKeyPublic" : String) == "masterKeyPublic") &&
      ((dsaPk87 2).length == 2592)) = true
    rw [dsaPk87_length]
    decide
  have hpr : is_valid_master_key_private (some mprivC) = true := by
    show ((("masterKeyPrivate" : String) == "masterKeyPrivate") &&
      ((dsaSk87 2).length == 4896)) = true
    rw [dsaSk87_length]
    decide
  have hsw : sign_with_mlds87 (dsaSk87 2) (strBytes (serializeAccountKey apubC)) =
      some (dsaSig87 ((dsaSk87 2).take 2592) (strBytes (serializeAccountKey apubC))) := by
    unfold sign_with_mlds87
    rw [if_pos (dsaSk87_length 2)]
  have hsign : sign_master_key (some mprivC)
      (serializeAccountKey ⟨"accountKeyPublic", kemPk 3, "ML-KEM-768", 0⟩)
      (key_hash (serializeMasterKey mpubC)) = some asgC := by
    show create_signature_object_mlds87 mprivC.key
      (strBytes (serializeAccountKey ⟨"accountKeyPublic", kemPk 3, "ML-KEM-768", 0⟩))
      (key_hash (serializeMasterKey mpubC)) "masterKey" = some asgC
    unfold create_signature_object_mlds87
    rw [show mprivC.key = dsaSk87 2 from rfl]
    rw [show strBytes (serializeAccountKey ⟨"accountKeyPublic", kemPk 3, "ML-KEM-768", 0⟩) =
      strBytes (serializeAccountKey apubC) from rfl]
    rw [hsw]
    rfl
  have hacct : generate_account_key (some mpubC) (some mprivC) 3 0 =
      some (apubC, aprivC, asgC) := by
    rw [generate_account_key_eq mpubC mprivC 3 0 hpb hpr, hsign]
    rfl
  exact ⟨hroom,
    (c1_discriminator_laws_amended.1 uuidC 5 7 roomC hroom).2.2.2.2.1,
    hacct,
    (c1_discriminator_laws_amended.2.2.1 (some mpubC) (some mprivC) 3 0 apubC aprivC asgC
      hacct).2.2.2.2.2.2.1⟩

/-- A room-key record whose decoded key is 31 bytes: it passes
`is_valid_room_key`, which performs no length check. -/
def roomBadC : RoomKey := ⟨"roomKey", List.replicate 31 0, "AES-GCM", 9, uuidC⟩

/-- A small well-formed room envelope. -/
def edSmallC : EncryptedData :=
  ⟨"roomKey", List.replicate 32 0, List.replicate 20 0, List.replicate 12 0,
   some "AES-GCM", none⟩

/-- C2 fails on the code: a wrong-length key that passed structural
validation drives `decrypt_data_room_key` into
`Aes256Gcm::new_from_slice(..).unwrap()`, which aborts instead of
returning an absent value. -/
theorem c2_counterexample :
    is_valid_room_key (some roomBadC) = true ∧
    decrypt_data_room_key (some roomBadC) (some edSmallC) = .panics := by
  constructor
  · decide
  · decide

/-- C2 amended: failures detected by the validation ladder (structural
validators, signature verification, parsing, roomid/freshness) do
return an absent value, but past validation the decryption paths abort
on malformed input instead of returning absent. -/
theorem c2_propagation_amended :
    (∀ (rk : Option RoomKey) (ed : Option EncryptedData),
      is_valid_room_key rk = false → decrypt_data_room_key rk ed = .absent) ∧
    (∀ (ak : Option AccountKey) (ed : Option EncryptedData),
      (is_valid_account_key_private ak && is_valid_encrypted_data_account_key ed) = false →
      decrypt_data_account_key ak ed = .absent) ∧
    (∀ (msg : String) (parsed : Option ParsedMsg) (sign : Option Sign) (sts : Nat)
       (rk : Option RoomKey) (ik : Option IdentityKey) (rid : String)
       (probe : String → Option JsonProbe),
      verify_identity_key ik sign msg = false →
      decrypt_message msg parsed sign sts rk ik rid probe = .absent) := by
  refine ⟨?_, ?_, ?_⟩
  · intro rk ed h
    simp [decrypt_data_room_key, h]
  · intro ak ed h
    cases ha : is_valid_account_key_private ak with
    | false => simp [decrypt_data_account_key, ha]
    | true =>
      have hb : is_valid_encrypted_data_account_key ed = false := by
        rw [ha] at h
        simpa using h
      simp [decrypt_data_account_key, ha, hb]
  · intro msg parsed sign sts rk ik rid probe h
    cases hv : is_valid_identity_key_public ik with
    | false => simp [decrypt_message, hv]
    | true => simp [decrypt_message, hv, h]

/-- Concrete instance of `c2_propagation_amended`: unparsable inputs
yield absent results, not aborts. -/
theorem c2_propagation_amended_witness :
    is_valid_room_key none = false ∧
    decrypt_data_room_key none none = .absent ∧
    verify_identity_key none none "m" = false ∧
    decrypt_message "m" none none 0 none none "r" (fun _ => none) = .absent :=
  ⟨rfl, c2_propagation_amended.1 none none rfl, rfl,
   c2_propagation_amended.2.2 "m" none none 0 none none "r" (fun _ => none) rfl⟩

theorem freshness_small (t s : Nat) (ht : t < 2 ^ 63) (hs : s < 2 ^ 63) :
    freshness_exceeded t s = decide (60000 < (t - s) + (s - t)) := by
  unfold freshness_exceeded i64ofU64 wrapI64 i64abs u64ofI64
  rw [if_pos ht, if_pos hs]
  have h1 : ((t : Int) - s + 2 ^ 63) % 2 ^ 64 = (t : Int) - s + 2 ^ 63 := by
    rw [Int.emod_eq_of_lt (by omega) (by omega)]
  rw [h1]
  have h2 : (t : Int) - s + 2 ^ 63 - 2 ^ 63 = (t : Int) - s := by ring
  rw [h2]
  rw [if_neg (by omega : ¬((t : Int) - s = -(2 ^ 63)))]
  have h3 : ((((t : Int) - s).natAbs : Int)) % 2 ^ 64 = (((t : Int) - s).natAbs : Int) := by
    rw [Int.emod_eq_of_lt (by omega) (by omega)]
  rw [h3]
  have h4 : ((((t : Int) - s).natAbs : Int)).toNat = (t - s) + (s - t) := by omega
  rw [h4]

/-- A concrete identity public record (seed 1). -/
def ikC : IdentityKey := ⟨"identityKeyPublic", dsaPk65 1, "ML-DSA-65", 0, uuidC⟩

/-- The raw text of a cleartext message whose `timestamp` field is the
maximal u64 value. -/
def msgC : String :=
  "\x7b\"encrypted\":false,\"value\":\"x\",\"channel\":\"c\",\"timestamp\":18446744073709551615,\"isLarge\":false,\"roomid\":\"r1\"\x7d"

/-- The JSON parse of `msgC`. -/
def parsedC : ParsedMsg :=
  ⟨some false, some 18446744073709551615, some "c", some false, none, some "r1",
   some (.str "x" none)⟩

/-- A valid identity signature envelope over `msgC` under `ikC`. -/
def signC : Sign :=
  ⟨"h", dsaSig65 (dsaPk65 1) (strBytes msgC), "identityKey", some "ML-DSA-65"⟩

/-- The output record `decrypt_message` produces for `msgC`. -/
def outC : OutMsg :=
  ⟨false, .raw (.str "x" none), "c", none, 18446744073709551615, false, "r1"⟩

theorem ikC_valid : is_valid_identity_key_public (some ikC) = true := by
  show (("identityKeyPublic" == "identityKeyPublic") &&
    (("ML-DSA-65" : String) == "ML-DSA-65") && is_valid_uuid_v7 uuidC) = true
  decide

theorem signC_verifies : verify_identity_key (some ikC) (some signC) msgC = true := by
  have h1 : verify_identity_key (some ikC) (some signC) msgC =
      verify_with_mlds65 (dsaPk65 1) (strBytes msgC) (dsaSig65 (dsaPk65 1) (strBytes msgC)) :=
    rfl
  rw [h1]
  unfold verify_with_mlds65
  rw [dsaPk65_length]
  simp

/-- C3 fails on the code: at `timestamp = 2^64 - 1` and
`serverTimestamp = 0`, the true absolute difference exceeds 60000 ms,
yet the u64-to-i64 casts wrap the difference to 1 and the message is
accepted. -/
theorem c3_counterexample :
    decrypt_message msgC (some parsedC) (some signC) 0 none (some ikC) "r1"
      (fun _ => none) = .ok outC ∧
    (18446744073709551615 : Nat) - 0 > 60000 := by
  constructor
  · have hfresh : freshness_exceeded 18446744073709551615 0 = false := by decide
    simp [decrypt_message, ikC_valid, signC_verifies, hfresh, parsedC, outC]
  · decide

/-- C3 amended: the freshness check compares the difference after
casting both u64 timestamps to i64 with wrapping; for timestamps below
2^63 (every realistic clock value) the claim holds as stated: the
cleartext message is accepted at a difference of up to 60000 ms and
rejected from 60001 ms. -/
theorem c3_freshness_amended (msg : String) (sign : Option Sign) (ik : Option IdentityKey)
    (rk : Option RoomKey) (probe : String → Option JsonProbe) (t s : Nat) (ch : String)
    (il : Bool) (orig : Option String) (rid : String) (val : MsgValue)
    (hva : is_valid_identity_key_public ik = true)
    (hve : verify_identity_key ik sign msg = true)
    (ht : t < 2 ^ 63) (hs : s < 2 ^ 63) :
    ((t - s) + (s - t) ≤ 60000 →
      decrypt_message msg (some ⟨some false, some t, some ch, some il, orig, some rid, some val⟩)
        sign s rk ik rid probe = .ok ⟨false, .raw val, ch, orig, t, il, rid⟩) ∧
    (60001 ≤ (t - s) + (s - t) →
      decrypt_message msg (some ⟨some false, some t, some ch, some il, orig, some rid, some val⟩)
        sign s rk ik rid probe = .absent) := by
  have hf := freshness_small t s ht hs
  constructor
  · intro hle
    have hfresh : freshness_exceeded t s = false := by
      rw [hf]
      simp only [decide_eq_false_iff_not]
      omega
    simp [decrypt_message, hva, hve, hfresh]
  · intro hge
    have hfresh : freshness_exceeded t s = true := by
      rw [hf]
      simp only [decide_eq_true_eq]
      omega
    simp [decrypt_message, hva, hve, hfresh]

/-- The raw text of a cleartext message with a realistic timestamp. -/
def msg2C : String :=
  "\x7b\"encrypted\":false,\"value\":\"x\",\"channel\":\"c\",\"timestamp\":1700000000000,\"isLarge\":false,\"roomid\":\"r1\"\x7d"

/-- A valid identity signature envelope over `msg2C` under `ikC`. -/
def sign2C : Sign :=
  ⟨"h", dsaSig65 (dsaPk65 1) (strBytes msg2C), "identityKey", some "ML-DSA-65"⟩

theorem sign2C_verifies : verify_identity_key (some ikC) (some sign2C) msg2C = true := by
  have h1 : verify_identity_key (some ikC) (some sign2C) msg2C =
      verify_with_mlds65 (dsaPk65 1) (strBytes msg2C) (dsaSig65 (dsaPk65 1) (strBytes msg2C)) :=
    rfl
  rw [h1]
  unfold verify_with_mlds65
  rw [dsaPk65_length]
  simp

/-- Concrete instance of `c3_freshness_amended`: equal timestamps are
within the window and the cleartext message is returned. -/
theorem c3_freshness_amended_witness :
    decrypt_message msg2C
      (some ⟨some false, some 1700000000000, some "c", some false, none, some "r1",
             some (.str "x" none)⟩)
      (some sign2C) 1700000000000 none (some ikC) "r1" (fun _ => none) =
      .ok ⟨false, .raw (.str "x" none), "c", none, 1700000000000, false, "r1"⟩ :=
  (c3_freshness_amended msg2C (some sign2C) (some ikC) none (fun _ => none)
    1700000000000 1700000000000 "c" false none "r1" (.str "x" none)
    ikC_valid sign2C_verifies (by decide) (by decide)).1 (by decide)

/-- C4: `decrypt_message` returns absent whenever the parsed message's
`roomid` differs from the caller's parameter, regardless of everything
else. -/
theorem c4_roomid_binding (msg : String) (p : ParsedMsg) (sign : Option Sign) (sts : Nat)
    (rk : Option RoomKey) (ik : Option IdentityKey) (roomid : String)
    (probe : String → Option JsonProbe) (rid : String)
    (hrid : p.roomid = some rid) (hne : rid ≠ roomid) :
    decrypt_message msg (some p) sign sts rk ik roomid probe = .absent := by
  obtain ⟨e, tm, ch, il, o, ro, v⟩ := p
  have hro : ro = some rid := hrid
  subst hro
  have hbne : (rid != roomid) = true := bne_iff_ne.mpr hne
  cases hv : is_valid_identity_key_public ik <;>
    cases hw : verify_identity_key ik sign msg <;>
      cases e <;> cases tm <;> cases ch <;> cases il <;>
        simp [decrypt_message, hv, hw, hbne]

/-- Concrete instance of `c4_roomid_binding`: roomid `"r1"` in the
message, caller passes `"r2"`. -/
theorem c4_roomid_binding_witness :
    decrypt_message "m"
      (some ⟨some true, some 5, some "c", some true, none, some "r1", none⟩)
      none 0 none none "r2" (fun _ => none) = .absent :=
  c4_roomid_binding "m" ⟨some true, some 5, some "c", some true, none, some "r1", none⟩
    none 0 none none "r2" (fun _ => none) "r1" rfl (by decide)
